import Mathlib

/-!
Shallow embedding of `src/app.py` (Auto PPT Generator).

The script has three parts, each embedded below:

* `generate_slide_content` (app.py lines 9-69): one outbound LLM API call whose
  textual reply is parsed with `json.loads`; any exception is reported via
  `st.error` and `None` is returned.
* `create_presentation` (app.py lines 71-118): loads the uploaded template with
  `pptx.Presentation`, picks `prs.slide_layouts[1]`, and appends one slide per
  entry of `llm_output_json.get('slides', [])`, filling the title placeholder
  and the placeholder with `placeholder_format.idx == 1`; any exception is
  reported via `st.error` and `None` is returned.
* the generate-button handler (app.py lines 152-178): validates the three
  required fields in a fixed order, then runs generator and renderer in
  sequence, offering a download only when both succeed.

Python dynamic values flowing out of `json.loads` are embedded as `JValue`;
Python exceptions as `Except String`; the `st.*` UI calls as a list of
`UIEvent`s.  Machine-level details of the pptx XML are abstracted: a text
frame is its list of paragraph texts, serialization (`prs.save`) is the
identity on the document model.
-/

/-- A Python value produced by `json.loads`: JSON null, booleans, numbers
(restricted to integers; the script's schema only ever carries strings and
lists, so fractional numbers are not modelled), strings, lists and dicts.
A dict is kept as the parsed key/value list; lookups take the last binding,
matching Python's last-duplicate-wins construction of dicts. -/
inductive JValue where
  | null
  | bool (b : Bool)
  | num (n : Int)
  | str (s : String)
  | arr (elems : List JValue)
  | obj (fields : List (String × JValue))

/-- Python truthiness (`if x:`) for a `json.loads` result: `None`, `False`,
`0`, `""`, `[]` and `{}` are falsy, everything else truthy. -/
def JValue.truthy : JValue → Bool
  | .null => false
  | .bool b => b
  | .num n => n != 0
  | .str s => s != ""
  | .arr elems => !elems.isEmpty
  | .obj fields => !fields.isEmpty

/-- Lookup in a parsed JSON object.  Python's dict construction keeps the last
value for a duplicated key, so the reversed list is searched. -/
def lookupLast (fields : List (String × JValue)) (key : String) : Option JValue :=
  fields.reverse.lookup key

/-- Python `x.get(key, default)`: only dicts have `.get`; calling it on any
other value raises `AttributeError`. -/
def JValue.get (v : JValue) (key : String) (default : JValue) : Except String JValue :=
  match v with
  | .obj fields => .ok ((lookupLast fields key).getD default)
  | _ => .error "AttributeError: object has no attribute get"

/-- Keys of a parsed JSON object in Python dict order: first occurrence order,
duplicates collapsed. -/
def dictKeys (fields : List (String × JValue)) (seen : List String) : List String :=
  match fields with
  | [] => []
  | (k, _) :: rest =>
    if seen.contains k then dictKeys rest seen
    else k :: dictKeys rest (k :: seen)

/-- Python `for x in v`: lists iterate their elements, strings their
characters (as one-character strings), dicts their keys; other values raise
`TypeError`. -/
def pyIterList : JValue → Except String (List JValue)
  | .arr elems => .ok elems
  | .str s => .ok (s.data.map fun c => .str (String.mk [c]))
  | .obj fields => .ok ((dictKeys fields []).map JValue.str)
  | _ => .error "TypeError: object is not iterable"

/-- Assigning `p.text = item` for each item of a Python list: python-pptx
accepts only `str` values, so a non-string element raises `TypeError`. -/
def pyStrList : List JValue → Except String (List String)
  | [] => .ok []
  | .str s :: rest =>
    match pyStrList rest with
    | .ok l => .ok (s :: l)
    | .error e => .error e
  | _ :: _ => .error "TypeError: text must be a string"

/-- `content_items[0]` / `content_items[1:]` on the value drawn from the
`'content'` key: Python lists index their elements, strings their characters;
any other truthy value raises (`TypeError` / `KeyError`). -/
def pyTextItems : JValue → Except String (List String)
  | .arr elems => pyStrList elems
  | .str s => .ok (s.data.map fun c => String.mk [c])
  | _ => .error "TypeError: object is not subscriptable"

/-! ### `json.loads`

A recursive-descent reading of the JSON grammar fragment the script's schema
uses: null, booleans, integers, strings (with the common escapes), arrays and
objects.  Recursion is fuelled; `jsonLoads` supplies fuel ample for its
input's length. -/

/-- JSON insignificant whitespace. -/
def isJsonWs (c : Char) : Bool :=
  c = ' ' || c = '\n' || c = '\t' || c = '\r'

/-- Drop leading JSON whitespace. -/
def skipWs : List Char → List Char
  | [] => []
  | c :: cs => if isJsonWs c then skipWs cs else c :: cs

/-- One JSON string escape: the self-escaping characters map to themselves,
the letter escapes to their control characters. -/
def escChar (c : Char) : Option Char :=
  if c = '"' || c = '\\' || c = '/' then some c
  else if c = 'n' then some '\n'
  else if c = 't' then some '\t'
  else if c = 'r' then some '\r'
  else none

/-- Consume an expected literal character sequence, returning the remainder. -/
def stripLit (lit : List Char) (cs : List Char) : Option (List Char) :=
  match lit, cs with
  | [], rem => some rem
  | l :: ls, c :: rem => if c = l then stripLit ls rem else none
  | _ :: _, [] => none

/-- Body of a JSON string after the opening quote, up to the closing quote. -/
def parseStringBody : List Char → Option (String × List Char)
  | [] => none
  | '"' :: rest => some ("", rest)
  | '\\' :: c :: rest =>
    match escChar c with
    | none => none
    | some e =>
      match parseStringBody rest with
      | none => none
      | some (s, r) => some (String.mk (e :: s.data), r)
  | c :: rest =>
    match parseStringBody rest with
    | none => none
    | some (s, r) => some (String.mk (c :: s.data), r)

/-- Digits to their decimal value. -/
def digitsToNat (ds : List Char) : Nat :=
  ds.foldl (fun n c => n * 10 + (c.toNat - '0'.toNat)) 0

mutual

/-- One JSON value, returning the unconsumed remainder. -/
def parseValue : Nat → List Char → Option (JValue × List Char)
  | 0, _ => none
  | fuel + 1, cs =>
    match skipWs cs with
    | [] => none
    | c :: r =>
      if c = 'n' then (stripLit ['u', 'l', 'l'] r).map fun rem => (.null, rem)
      else if c = 't' then
        (stripLit ['r', 'u', 'e'] r).map fun rem => (.bool true, rem)
      else if c = 'f' then
        (stripLit ['a', 'l', 's', 'e'] r).map fun rem => (.bool false, rem)
      else if c = '"' then
        (parseStringBody r).map fun sr => (.str sr.1, sr.2)
      else if c = '[' then
        match skipWs r with
        | ']' :: rem => some (.arr [], rem)
        | _ => parseElems fuel [] r
      else if c = '\x7b' then
        match skipWs r with
        | '\x7d' :: rem => some (.obj [], rem)
        | _ => parseMembers fuel [] r
      else if c = '-' then
        match r.span (fun d => d.isDigit) with
        | ([], _) => none
        | (ds, rem) => some (.num (-(Int.ofNat (digitsToNat ds))), rem)
      else if c.isDigit then
        match (c :: r).span (fun d => d.isDigit) with
        | (ds, rem) => some (.num (Int.ofNat (digitsToNat ds)), rem)
      else none

/-- Comma-separated array elements up to `]`. -/
def parseElems : Nat → List JValue → List Char → Option (JValue × List Char)
  | 0, _, _ => none
  | fuel + 1, acc, cs =>
    match parseValue fuel cs with
    | none => none
    | some (elem, rem) =>
      match skipWs rem with
      | ',' :: rem2 => parseElems fuel (acc ++ [elem]) rem2
      | ']' :: rem2 => some (.arr (acc ++ [elem]), rem2)
      | _ => none

/-- Comma-separated object members up to the closing brace. -/
def parseMembers : Nat → List (String × JValue) → List Char →
    Option (JValue × List Char)
  | 0, _, _ => none
  | fuel + 1, acc, cs =>
    match skipWs cs with
    | '"' :: afterQuote =>
      match parseStringBody afterQuote with
      | none => none
      | some (key, afterKey) =>
        match skipWs afterKey with
        | ':' :: afterColon =>
          match parseValue fuel afterColon with
          | none => none
          | some (val, afterVal) =>
            match skipWs afterVal with
            | ',' :: more => parseMembers fuel (acc ++ [(key, val)]) more
            | '\x7d' :: more => some (.obj (acc ++ [(key, val)]), more)
            | _ => none
        | _ => none
    | _ => none

end

/-- `json.loads` on the reply text: the whole input must be one JSON value
plus trailing whitespace, otherwise a `JSONDecodeError` is raised. -/
def jsonLoads (s : String) : Except String JValue :=
  match parseValue (4 * s.length + 8) s.data with
  | some (v, rest) =>
    if skipWs rest = [] then .ok v else .error "Extra data"
  | none => .error "Expecting value"

/-! ### The python-pptx document model

`create_presentation` touches only placeholders and their text frames, so a
placeholder is embedded as its `placeholder_format.idx`, whether it is the
slide's title placeholder (`slide.shapes.title` finds it), and the list of
paragraph texts of its text frame. -/

/-- A placeholder shape: its `placeholder_format.idx`, whether
`slide.shapes.title` resolves to it, and its text frame's paragraph texts. -/
structure Placeholder where
  idx : Nat
  isTitle : Bool
  paragraphs : List String
deriving Repr, DecidableEq

/-- A slide layout: the placeholders (with their default text) that
`add_slide` clones onto a new slide. -/
structure SlideLayout where
  placeholders : List Placeholder
deriving Repr, DecidableEq

/-- A slide: its placeholder shapes. -/
structure Slide where
  placeholders : List Placeholder
deriving Repr, DecidableEq

/-- A presentation document: its slide layouts and its slides. -/
structure Pres where
  slideLayouts : List SlideLayout
  slides : List Slide
deriving Repr, DecidableEq

/-- The uploaded template file, as `pptx.Presentation` sees it: either a
well-formed package (carrying the document it opens to) or one that makes
the load raise. -/
inductive TemplateFile where
  | valid (prs : Pres)
  | corrupt (reason : String)
deriving Repr, DecidableEq

/-- `Presentation(template_file)` (app.py line 76): opens the package or
raises. -/
def loadPresentation : TemplateFile → Except String Pres
  | .valid prs => .ok prs
  | .corrupt reason => .error reason

/-- Replace the first list element satisfying `p` by its image under `f`;
used for writing into the placeholder that a linear search found. -/
def updateFirst {α : Type} (p : α → Bool) (f : α → α) : List α → List α
  | [] => []
  | x :: rest => if p x then f x :: rest else x :: updateFirst p f rest

/-- Paragraph texts after `p = tf.paragraphs[0]; p.text = first` followed by
one `tf.add_paragraph(); p.text = item` per remaining item (app.py lines
103-109).  The frame was just cleared, so it has exactly one paragraph;
the unreachable empty case is mapped to the same texts. -/
def setFirstAndAppend (paragraphs : List String) (first : String)
    (rest : List String) : List String :=
  match paragraphs with
  | [] => first :: rest
  | _ :: tail => first :: tail ++ rest

/-- Lines 85-87: `title = slide.shapes.title; if title: title.text =
slide_data.get('title', '')`.  python-pptx's `.text` setter accepts only
`str`, so a non-string title raises `TypeError`. -/
def setSlideTitle (slide_data : JValue) (slide : Slide) : Except String Slide :=
  match slide.placeholders.find? (fun ph => ph.isTitle) with
  | some _ =>
    match JValue.get slide_data "title" (.str "") with
    | .error e => .error e
    | .ok tv =>
      match tv with
      | .str t =>
        .ok ⟨updateFirst (fun ph => ph.isTitle)
              (fun ph => { ph with paragraphs := [t] }) slide.placeholders⟩
      | _ => .error "TypeError: text must be a string"
  | none => .ok slide

/-- Lines 89-109: search `slide.placeholders` for `placeholder_format.idx ==
1`; if found, `tf.clear()` (one empty paragraph remains), read
`slide_data.get('content', [])`, and when that value is truthy write its
items into the frame, first item into the existing paragraph, the rest
appended. -/
def fillSlideBody (slide_data : JValue) (slide : Slide) : Except String Slide :=
  match slide.placeholders.find? (fun ph => ph.idx == 1) with
  | none => .ok slide
  | some _ =>
    let cleared : Slide :=
      ⟨updateFirst (fun ph => ph.idx == 1)
        (fun ph => { ph with paragraphs := [""] }) slide.placeholders⟩
    match JValue.get slide_data "content" (.arr []) with
    | .error e => .error e
    | .ok content_items =>
      if content_items.truthy then
        match pyTextItems content_items with
        | .error e => .error e
        | .ok [] => .error "IndexError: list index out of range"
        | .ok (first :: rest) =>
          .ok ⟨updateFirst (fun ph => ph.idx == 1)
                (fun ph =>
                  { ph with paragraphs := setFirstAndAppend ph.paragraphs first rest })
                cleared.placeholders⟩
      else .ok cleared

/-- Lines 83-109, one loop iteration: `prs.slides.add_slide(layout)` clones
the layout's placeholders onto a fresh slide, then title and body are
written. -/
def buildSlide (layout : SlideLayout) (slide_data : JValue) : Except String Slide :=
  match setSlideTitle slide_data ⟨layout.placeholders⟩ with
  | .error e => .error e
  | .ok titled => fillSlideBody slide_data titled

/-- The `for slide_data in ...` loop (lines 82-109): each built slide is
appended to `prs.slides`; the first exception aborts the whole
`create_presentation` call, discarding the document. -/
def addSlides (layout : SlideLayout) (prs : Pres) :
    List JValue → Except String Pres
  | [] => .ok prs
  | slide_data :: rest =>
    match buildSlide layout slide_data with
    | .error e => .error e
    | .ok slide => addSlides layout { prs with slides := prs.slides ++ [slide] } rest

/-- The body of `create_presentation`'s `try` block (lines 76-115): load the
template, index `prs.slide_layouts[1]` (raising `IndexError` when absent),
read `llm_output_json.get('slides', [])`, iterate it building slides, and
serialize.  Serialization to the `BytesIO` stream is the identity on the
document model. -/
def createPresE (llm_output_json : JValue) (template_file : TemplateFile) :
    Except String Pres :=
  match loadPresentation template_file with
  | .error e => .error e
  | .ok prs =>
    match prs.slideLayouts[1]? with
    | none => .error "IndexError: list index out of range"
    | some title_and_content_layout =>
      match JValue.get llm_output_json "slides" (.arr []) with
      | .error e => .error e
      | .ok slidesVal =>
        match pyIterList slidesVal with
        | .error e => .error e
        | .ok slide_datas => addSlides title_and_content_layout prs slide_datas

/-- A `st.*` call observable in the page: an error box, a success box, or the
download button with its payload. -/
inductive UIEvent where
  | errorMsg (text : String)
  | successMsg (text : String)
  | downloadOffered (data : Pres)
deriving Repr, DecidableEq

/-- `create_presentation` (lines 71-118): the `try` body, with any exception
caught, reported through `st.error`, and `None` returned. -/
def create_presentation (llm_output_json : JValue) (template_file : TemplateFile) :
    List UIEvent × Option Pres :=
  match createPresE llm_output_json template_file with
  | .ok prs => ([], some prs)
  | .error e => ([.errorMsg ("Failed to create presentation file: " ++ e)], none)

/-- Outcome of the `openai.chat.completions.create` call (lines 56-63): the
reply's message text, or the exception the call raised (auth failure, rate
limit, timeout, ...). -/
inductive ApiResult where
  | success (content : String)
  | failure (message : String)
deriving Repr, DecidableEq

/-- `generate_slide_content` (lines 9-69): the API call and `json.loads` both
sit in one `try`; any exception is reported with `st.error` and `None` is
returned, otherwise the parsed value is returned unvalidated.  The prompt
built from `raw_text` and `guidance` only influences the external reply,
which enters as `api`. -/
def generate_slide_content (api_key raw_text guidance : String)
    (api : ApiResult) : List UIEvent × Option JValue :=
  match api with
  | .failure e =>
    ([.errorMsg ("An error occurred with the LLM API call: " ++ e)], none)
  | .success json_string =>
    match jsonLoads json_string with
    | .ok v => ([], some v)
    | .error e =>
      ([.errorMsg ("An error occurred with the LLM API call: " ++ e)], none)

/-- What one click of the generate button produced: the page events in order,
and whether each core function was entered. -/
structure HandlerResult where
  events : List UIEvent
  generatorRan : Bool
  rendererRan : Bool
deriving Repr, DecidableEq

/-- The `if generate_button:` block (lines 152-178): validate `raw_text`,
`api_key`, `uploaded_template` in that order (Python falsiness: empty string
/ `None`), each failure reporting its own message and stopping; otherwise run
the generator, and only when its result is truthy run the renderer, and only
when that result is non-`None` (a `BytesIO` is always truthy) offer the
download. -/
def generate_button_action (raw_text guidance api_key : String)
    (uploaded_template : Option TemplateFile) (api : ApiResult) : HandlerResult :=
  if raw_text = "" then
    { events := [.errorMsg "Please paste your text content in Step 1."],
      generatorRan := false, rendererRan := false }
  else if api_key = "" then
    { events := [.errorMsg "Please enter your API key in Step 3."],
      generatorRan := false, rendererRan := false }
  else
    match uploaded_template with
    | none =>
      { events := [.errorMsg "Please upload a PowerPoint template in Step 4."],
        generatorRan := false, rendererRan := false }
    | some tmpl =>
      let gen := generate_slide_content api_key raw_text guidance api
      match gen.2 with
      | some llm_output =>
        if llm_output.truthy then
          let cp := create_presentation llm_output tmpl
          match cp.2 with
          | some stream =>
            { events := gen.1 ++ [.successMsg "✅ Content structure generated!"]
                ++ cp.1 ++ [.successMsg "✅ Presentation created!",
                            .downloadOffered stream],
              generatorRan := true, rendererRan := true }
          | none =>
            { events := gen.1 ++ [.successMsg "✅ Content structure generated!"]
                ++ cp.1,
              generatorRan := true, rendererRan := true }
        else { events := gen.1, generatorRan := true, rendererRan := false }
      | none => { events := gen.1, generatorRan := true, rendererRan := false }

/-- A slide entry of the schema the script's prompt requests (spec §3's slide
descriptor): a JSON object whose `'title'`, when present, is a string and
whose `'content'`, when present, is a list of strings. -/
def wfSlideEntry : JValue → Bool
  | .obj fields =>
    (match lookupLast fields "title" with
     | none => true
     | some (.str _) => true
     | some _ => false) &&
    (match lookupLast fields "content" with
     | none => true
     | some (.arr elems) => elems.all fun e =>
         match e with
         | .str _ => true
         | _ => false
     | some _ => false)
  | _ => false

/-! ### Concrete instances

A minimal "Title and Content" template of the shape the script assumes
(`slide_layouts[1]` holding a title placeholder and a body placeholder with
`placeholder_format.idx == 1`), one without the body placeholder, and
outline entries following the prompt's schema.  They instantiate the
universally quantified theorems below on concrete inputs. -/

/-- A title placeholder with its layout default text. -/
def sampleTitlePh : Placeholder :=
  { idx := 0, isTitle := true, paragraphs := ["Click to add title"] }

/-- A body placeholder (`placeholder_format.idx == 1`) with default text. -/
def sampleBodyPh : Placeholder :=
  { idx := 1, isTitle := false, paragraphs := ["Click to add text"] }

/-- A title-only slide layout. -/
def sampleLayout0 : SlideLayout := ⟨[sampleTitlePh]⟩

/-- A "Title and Content" slide layout. -/
def sampleLayout1 : SlideLayout := ⟨[sampleTitlePh, sampleBodyPh]⟩

/-- A template whose layout at position 1 has both placeholders. -/
def samplePres : Pres := ⟨[sampleLayout0, sampleLayout1], []⟩

/-- A template whose layout at position 1 has no `idx == 1` placeholder. -/
def titleOnlyPres : Pres := ⟨[sampleLayout0, sampleLayout0], []⟩

/-- An outline entry with a three-item content list. -/
def sampleEntry : JValue :=
  .obj [("title", .str "Overview"),
    ("content", .arr [.str "Alpha", .str "Beta", .str "Gamma"])]

/-- A second outline entry. -/
def sampleEntry2 : JValue :=
  .obj [("title", .str "Details"), ("content", .arr [.str "Delta"])]

/-- An outline entry with an empty content list. -/
def sampleEntryEmpty : JValue :=
  .obj [("title", .str "Empty"), ("content", .arr [])]

/-! ### Helper lemmas -/

theorem find?_updateFirst_same {α : Type} (q : α → Bool) (f : α → α)
    (hf : ∀ x, q (f x) = q x) (l : List α) :
    (updateFirst q f l).find? q = (l.find? q).map f := by
  induction l with
  | nil => simp [updateFirst]
  | cons x rest ih =>
    by_cases h : q x
    · simp [updateFirst, h, List.find?_cons, hf x]
    · simp [updateFirst, h, List.find?_cons, ih]

theorem find?_updateFirst_isSome {α : Type} (q p : α → Bool) (f : α → α)
    (hf : ∀ x, q (f x) = q x) (l : List α) :
    ((updateFirst p f l).find? q).isSome = (l.find? q).isSome := by
  induction l with
  | nil => simp [updateFirst]
  | cons x rest ih =>
    by_cases hp : p x
    · simp only [updateFirst, hp, if_pos, List.find?_cons, hf x]
      cases hq : q x <;> simp
    · simp only [updateFirst, hp, if_neg, Bool.false_eq_true, not_false_iff,
        List.find?_cons]
      cases hq : q x <;> simp [ih]

theorem pyStrList_map (l : List String) :
    pyStrList (l.map JValue.str) = .ok l := by
  induction l with
  | nil => rfl
  | cons s rest ih => simp [pyStrList, ih]

theorem pyStrList_all_ok (elems : List JValue)
    (h : (elems.all fun e =>
      match e with
      | .str _ => true
      | _ => false) = true) :
    ∃ l, pyStrList elems = .ok l := by
  induction elems with
  | nil => exact ⟨[], rfl⟩
  | cons e rest ih =>
    simp only [List.all_cons, Bool.and_eq_true] at h
    obtain ⟨he, hrest⟩ := h
    obtain ⟨l, hl⟩ := ih hrest
    cases e <;> simp_all [pyStrList]

theorem setSlideTitle_wf_ok (efs : List (String × JValue)) (s : Slide)
    (hwf : wfSlideEntry (.obj efs) = true) :
    ∃ s1, setSlideTitle (.obj efs) s = .ok s1 ∧
      ((s1.placeholders.find? fun ph => ph.idx == 1).isSome
        = (s.placeholders.find? fun ph => ph.idx == 1).isSome) := by
  simp only [wfSlideEntry, Bool.and_eq_true] at hwf
  obtain ⟨ht, _⟩ := hwf
  unfold setSlideTitle
  cases hfind : s.placeholders.find? fun ph => ph.isTitle with
  | none => exact ⟨s, rfl, rfl⟩
  | some ph0 =>
    cases hT : lookupLast efs "title" with
    | none =>
      simp only [JValue.get, hT, Option.getD_none]
      exact ⟨_, rfl,
        find?_updateFirst_isSome (fun ph => ph.idx == 1) (fun ph => ph.isTitle)
          (fun ph => { ph with paragraphs := [""] }) (fun x => rfl) s.placeholders⟩
    | some tv =>
      rw [hT] at ht
      cases tv with
      | str t =>
        simp only [JValue.get, hT, Option.getD_some]
        exact ⟨_, rfl,
          find?_updateFirst_isSome (fun ph => ph.idx == 1) (fun ph => ph.isTitle)
            (fun ph => { ph with paragraphs := [t] }) (fun x => rfl) s.placeholders⟩
      | null => simp at ht
      | bool b => simp at ht
      | num n => simp at ht
      | arr elems => simp at ht
      | obj fields => simp at ht

theorem setSlideTitle_with_title (efs : List (String × JValue)) (s : Slide)
    (ph0 : Placeholder) (t : String)
    (hfind : (s.placeholders.find? fun ph => ph.isTitle) = some ph0)
    (ht : lookupLast efs "title" = some (.str t)) :
    setSlideTitle (.obj efs) s =
      .ok ⟨updateFirst (fun ph => ph.isTitle)
            (fun ph => { ph with paragraphs := [t] }) s.placeholders⟩ := by
  unfold setSlideTitle
  rw [hfind]
  simp [JValue.get, ht]

theorem fillSlideBody_no_body (slide_data : JValue) (s : Slide)
    (h : (s.placeholders.find? fun ph => ph.idx == 1) = none) :
    fillSlideBody slide_data s = .ok s := by
  unfold fillSlideBody
  rw [h]

theorem fillSlideBody_empty_content (efs : List (String × JValue)) (s : Slide)
    (ph0 : Placeholder)
    (hfind : (s.placeholders.find? fun ph => ph.idx == 1) = some ph0)
    (hc : lookupLast efs "content" = some (.arr [])) :
    fillSlideBody (.obj efs) s =
      .ok ⟨updateFirst (fun ph => ph.idx == 1)
            (fun ph => { ph with paragraphs := [""] }) s.placeholders⟩ := by
  unfold fillSlideBody
  rw [hfind]
  simp [JValue.get, hc, JValue.truthy]

theorem fillSlideBody_content (efs : List (String × JValue)) (s : Slide)
    (ph0 : Placeholder) (first : String) (rest : List String)
    (hfind : (s.placeholders.find? fun ph => ph.idx == 1) = some ph0)
    (hc : lookupLast efs "content" = some (.arr ((first :: rest).map JValue.str))) :
    ∃ s2 ph, fillSlideBody (.obj efs) s = .ok s2 ∧
      (s2.placeholders.find? fun ph => ph.idx == 1) = some ph ∧
      ph.paragraphs = first :: rest := by
  unfold fillSlideBody
  rw [hfind]
  simp only [JValue.get, hc, Option.getD_some, JValue.truthy, List.map_cons,
    List.isEmpty_cons, Bool.not_false, if_pos, pyTextItems, pyStrList,
    pyStrList_map]
  have h2 := find?_updateFirst_same (fun ph => ph.idx == 1)
    (fun ph => { ph with paragraphs := [""] }) (fun x => rfl) s.placeholders
  rw [hfind] at h2
  have h3 := find?_updateFirst_same (fun ph => ph.idx == 1)
    (fun ph => { ph with paragraphs := setFirstAndAppend ph.paragraphs first rest })
    (fun x => rfl)
    (updateFirst (fun ph => ph.idx == 1)
      (fun ph => { ph with paragraphs := [""] }) s.placeholders)
  rw [h2] at h3
  exact ⟨_, _, rfl, h3, by simp [setFirstAndAppend]⟩

theorem fillSlideBody_wf_ok (efs : List (String × JValue)) (s : Slide)
    (hwf : wfSlideEntry (.obj efs) = true) :
    ∃ s2, fillSlideBody (.obj efs) s = .ok s2 := by
  simp only [wfSlideEntry, Bool.and_eq_true] at hwf
  obtain ⟨_, hc⟩ := hwf
  unfold fillSlideBody
  cases hfind : s.placeholders.find? fun ph => ph.idx == 1 with
  | none => exact ⟨s, rfl⟩
  | some ph0 =>
    cases hC : lookupLast efs "content" with
    | none => simp [JValue.get, hC, JValue.truthy]
    | some cv =>
      rw [hC] at hc
      cases cv with
      | arr elems =>
        cases elems with
        | nil => simp [JValue.get, hC, JValue.truthy]
        | cons e0 erest =>
          simp only [JValue.get, hC, Option.getD_some, JValue.truthy,
            List.isEmpty_cons, Bool.not_false, if_pos, pyTextItems]
          obtain ⟨l, hl⟩ := pyStrList_all_ok _ hc
          rw [hl]
          cases l with
          | nil =>
            exfalso
            cases e0 with
            | str s0 =>
              simp only [pyStrList] at hl
              cases h2 : pyStrList erest <;> rw [h2] at hl <;> simp at hl
            | null => simp at hc
            | bool b => simp at hc
            | num n => simp at hc
            | arr es => simp at hc
            | obj fs => simp at hc
          | cons first rest => exact ⟨_, rfl⟩
      | null => simp at hc
      | bool b => simp at hc
      | num n => simp at hc
      | str s0 => simp at hc
      | obj fs => simp at hc

theorem buildSlide_wf_ok (layout : SlideLayout) (e : JValue)
    (hwf : wfSlideEntry e = true) :
    ∃ s, buildSlide layout e = .ok s := by
  cases e with
  | obj efs =>
    obtain ⟨s1, h1, _⟩ := setSlideTitle_wf_ok efs ⟨layout.placeholders⟩ hwf
    obtain ⟨s2, h2⟩ := fillSlideBody_wf_ok efs s1 hwf
    exact ⟨s2, by unfold buildSlide; rw [h1]; exact h2⟩
  | null => simp [wfSlideEntry] at hwf
  | bool b => simp [wfSlideEntry] at hwf
  | num n => simp [wfSlideEntry] at hwf
  | str s0 => simp [wfSlideEntry] at hwf
  | arr es => simp [wfSlideEntry] at hwf

theorem buildSlide_content (layout : SlideLayout) (efs : List (String × JValue))
    (first : String) (rest : List String)
    (hwf : wfSlideEntry (.obj efs) = true)
    (hB : ((layout.placeholders.find? fun ph => ph.idx == 1).isSome) = true)
    (hc : lookupLast efs "content" = some (.arr ((first :: rest).map JValue.str))) :
    ∃ s2 ph, buildSlide layout (.obj efs) = .ok s2 ∧
      (s2.placeholders.find? fun ph => ph.idx == 1) = some ph ∧
      ph.paragraphs = first :: rest := by
  obtain ⟨s1, h1, hsome⟩ := setSlideTitle_wf_ok efs ⟨layout.placeholders⟩ hwf
  rw [hB] at hsome
  obtain ⟨ph1, hph1⟩ := Option.isSome_iff_exists.mp hsome
  obtain ⟨s2, ph, h2, hf, hp⟩ := fillSlideBody_content efs s1 ph1 first rest hph1 hc
  exact ⟨s2, ph, by unfold buildSlide; rw [h1]; exact h2, hf, hp⟩

theorem buildSlide_empty_content (layout : SlideLayout) (efs : List (String × JValue))
    (hwf : wfSlideEntry (.obj efs) = true)
    (hB : ((layout.placeholders.find? fun ph => ph.idx == 1).isSome) = true)
    (hc : lookupLast efs "content" = some (.arr [])) :
    ∃ s2 ph, buildSlide layout (.obj efs) = .ok s2 ∧
      (s2.placeholders.find? fun ph => ph.idx == 1) = some ph ∧
      ph.paragraphs = [""] := by
  obtain ⟨s1, h1, hsome⟩ := setSlideTitle_wf_ok efs ⟨layout.placeholders⟩ hwf
  rw [hB] at hsome
  obtain ⟨ph1, hph1⟩ := Option.isSome_iff_exists.mp hsome
  have h2 := fillSlideBody_empty_content efs s1 ph1 hph1 hc
  have h3 := find?_updateFirst_same (fun ph => ph.idx == 1)
    (fun ph => { ph with paragraphs := [""] }) (fun x => rfl) s1.placeholders
  rw [hph1] at h3
  exact ⟨_, _, by unfold buildSlide; rw [h1]; exact h2, h3, rfl⟩

theorem buildSlide_no_body (layout : SlideLayout) (efs : List (String × JValue))
    (ph0 : Placeholder) (t : String)
    (hT : (layout.placeholders.find? fun ph => ph.isTitle) = some ph0)
    (hB : (layout.placeholders.find? fun ph => ph.idx == 1) = none)
    (ht : lookupLast efs "title" = some (.str t)) :
    buildSlide layout (.obj efs) =
      .ok ⟨updateFirst (fun ph => ph.isTitle)
            (fun ph => { ph with paragraphs := [t] }) layout.placeholders⟩ := by
  unfold buildSlide
  rw [setSlideTitle_with_title efs ⟨layout.placeholders⟩ ph0 t hT ht]
  apply fillSlideBody_no_body
  have hsome := find?_updateFirst_isSome (fun ph => ph.idx == 1) (fun ph => ph.isTitle)
    (fun ph => { ph with paragraphs := [t] }) (fun x => rfl) layout.placeholders
  rw [hB] at hsome
  simp only [Option.isSome_none] at hsome
  cases hres : (updateFirst (fun ph => ph.isTitle)
      (fun ph => { ph with paragraphs := [t] }) layout.placeholders).find?
      fun ph => ph.idx == 1 with
  | none => rfl
  | some x => rw [hres] at hsome; simp at hsome

theorem addSlides_ok (layout : SlideLayout) (entries : List JValue)
    (h : ∀ e ∈ entries, ∃ s, buildSlide layout e = .ok s) :
    ∀ prs : Pres, ∃ p, addSlides layout prs entries = .ok p ∧
      p.slideLayouts = prs.slideLayouts ∧
      p.slides.length = prs.slides.length + entries.length ∧
      (∀ j, j < prs.slides.length → p.slides[j]? = prs.slides[j]?) ∧
      (∀ j e, entries[j]? = some e →
        p.slides[prs.slides.length + j]? = (buildSlide layout e).toOption) := by
  induction entries with
  | nil =>
    intro prs
    refine ⟨prs, rfl, rfl, by simp [addSlides], fun j _ => rfl, fun j e hj => ?_⟩
    simp at hj
  | cons e rest ih =>
    intro prs
    obtain ⟨s0, hs0⟩ := h e (by simp)
    have h' : ∀ x ∈ rest, ∃ s, buildSlide layout x = .ok s :=
      fun x hx => h x (by simp [hx])
    obtain ⟨p, hp, hlay, hlen, hpre, hidx⟩ :=
      ih h' { prs with slides := prs.slides ++ [s0] }
    refine ⟨p, ?_, hlay, ?_, ?_, ?_⟩
    · show addSlides layout prs (e :: rest) = .ok p
      unfold addSlides
      rw [hs0]
      exact hp
    · simp only [List.length_append, List.length_singleton] at hlen
      simp [hlen]
      omega
    · intro j hj
      rw [hpre j (by simp; omega)]
      simp [List.getElem?_append, hj]
    · intro j e' hj
      cases j with
      | zero =>
        simp only [List.getElem?_cons_zero, Option.some.injEq] at hj
        subst hj
        rw [Nat.add_zero]
        have hlt : prs.slides.length < (prs.slides ++ [s0]).length := by simp
        rw [hpre prs.slides.length (by simp)]
        rw [List.getElem?_append_right (Nat.le_refl _)]
        simp [hs0, Except.toOption]
      | succ k =>
        have hr := hidx k e' (by simpa using hj)
        have : prs.slides.length + (k + 1) =
            (prs.slides ++ [s0]).length + k := by simp; omega
        rw [this]
        exact hr

theorem createPres_wf (tpl : Pres) (layout : SlideLayout)
    (fs : List (String × JValue)) (entries : List JValue)
    (hL : tpl.slideLayouts[1]? = some layout)
    (hs : lookupLast fs "slides" = some (.arr entries))
    (hwf : ∀ e ∈ entries, wfSlideEntry e = true) :
    ∃ p, create_presentation (.obj fs) (.valid tpl) = ([], some p) ∧
      p.slideLayouts = tpl.slideLayouts ∧
      p.slides.length = tpl.slides.length + entries.length ∧
      (∀ j, j < tpl.slides.length → p.slides[j]? = tpl.slides[j]?) ∧
      (∀ j e, entries[j]? = some e →
        p.slides[tpl.slides.length + j]? = (buildSlide layout e).toOption) := by
  obtain ⟨p, hp, hlay, hlen, hpre, hidx⟩ :=
    addSlides_ok layout entries (fun e he => buildSlide_wf_ok layout e (hwf e he)) tpl
  refine ⟨p, ?_, hlay, hlen, hpre, hidx⟩
  have hcp : createPresE (.obj fs) (.valid tpl) = .ok p := by
    unfold createPresE
    simp only [loadPresentation, hL, JValue.get, hs, Option.getD_some, pyIterList]
    exact hp
  unfold create_presentation
  rw [hcp]

/-! ### Claim theorems -/

/-- C1: For every parsed outline whose `'slides'` list has N entries and
every template that loads successfully and whose layout at position 1
supplies both a title and a body placeholder, `create_presentation` reports
no error and returns a document whose slide count equals the template's
original slide count plus exactly N. -/
theorem create_presentation_appends_outline_slides
    (tpl : Pres) (layout : SlideLayout) (fs : List (String × JValue))
    (entries : List JValue)
    (hL : tpl.slideLayouts[1]? = some layout)
    (hT : ((layout.placeholders.find? fun ph => ph.isTitle).isSome) = true)
    (hB : ((layout.placeholders.find? fun ph => ph.idx == 1).isSome) = true)
    (hs : lookupLast fs "slides" = some (.arr entries))
    (hwf : ∀ e ∈ entries, wfSlideEntry e = true) :
    (create_presentation (.obj fs) (.valid tpl)).1 = [] ∧
    (create_presentation (.obj fs) (.valid tpl)).2.map (fun p => p.slides.length)
      = some (tpl.slides.length + entries.length) := by
  obtain ⟨p, hp, _, hlen, _, _⟩ := createPres_wf tpl layout fs entries hL hs hwf
  rw [hp]
  exact ⟨rfl, by simp [hlen]⟩

/-- Witness for C1: a two-entry outline rendered into `samplePres` yields a
document with exactly two slides beyond the template's zero. -/
theorem create_presentation_appends_outline_slides_witness :
    (create_presentation (.obj [("slides", .arr [sampleEntry, sampleEntry2])])
      (.valid samplePres)).1 = [] ∧
    (create_presentation (.obj [("slides", .arr [sampleEntry, sampleEntry2])])
      (.valid samplePres)).2.map (fun p => p.slides.length)
      = some (samplePres.slides.length + [sampleEntry, sampleEntry2].length) :=
  create_presentation_appends_outline_slides samplePres sampleLayout1
    [("slides", .arr [sampleEntry, sampleEntry2])] [sampleEntry, sampleEntry2]
    rfl rfl rfl rfl (by decide)

/-- C2: For every slide entry whose content list has length K >= 1, when the
body placeholder (placeholder index 1) is present, `create_presentation`
leaves that placeholder's text frame with exactly K paragraphs, paragraph 0
carrying content[0] and paragraphs 1..K-1 carrying content[1..K-1] in
order. -/
theorem create_presentation_body_paragraphs
    (tpl : Pres) (layout : SlideLayout) (fs : List (String × JValue))
    (entries : List JValue) (j : Nat) (efs : List (String × JValue))
    (first : String) (rest : List String)
    (hL : tpl.slideLayouts[1]? = some layout)
    (hB : ((layout.placeholders.find? fun ph => ph.idx == 1).isSome) = true)
    (hs : lookupLast fs "slides" = some (.arr entries))
    (hwf : ∀ e ∈ entries, wfSlideEntry e = true)
    (hj : entries[j]? = some (.obj efs))
    (hc : lookupLast efs "content" = some (.arr ((first :: rest).map JValue.str))) :
    (((create_presentation (.obj fs) (.valid tpl)).2.bind
        fun p => p.slides[tpl.slides.length + j]?).bind
      fun s => (s.placeholders.find? fun ph => ph.idx == 1).map
        fun ph => ph.paragraphs) = some (first :: rest) := by
  obtain ⟨p, hp, _, _, _, hidx⟩ := createPres_wf tpl layout fs entries hL hs hwf
  have hwfj : wfSlideEntry (.obj efs) = true := hwf _ (List.getElem?_mem hj)
  obtain ⟨s2, ph, hbs, hf, hpar⟩ := buildSlide_content layout efs first rest hwfj hB hc
  have hsl := hidx j (.obj efs) hj
  rw [hbs] at hsl
  simp only [Except.toOption] at hsl
  rw [hp]
  simp [hsl, hf, hpar]

/-- Witness for C2: the three-item entry of `sampleEntry` leaves the body
placeholder of the one appended slide with exactly the three content
paragraphs in order. -/
theorem create_presentation_body_paragraphs_witness :
    (((create_presentation (.obj [("slides", .arr [sampleEntry])])
        (.valid samplePres)).2.bind
      fun p => p.slides[samplePres.slides.length + 0]?).bind
      fun s => (s.placeholders.find? fun ph => ph.idx == 1).map
        fun ph => ph.paragraphs) = some ("Alpha" :: ["Beta", "Gamma"]) :=
  create_presentation_body_paragraphs samplePres sampleLayout1
    [("slides", .arr [sampleEntry])] [sampleEntry] 0
    [("title", .str "Overview"),
      ("content", .arr [.str "Alpha", .str "Beta", .str "Gamma"])]
    "Alpha" ["Beta", "Gamma"] rfl rfl rfl (by decide) rfl rfl

/-- C6: For every slide entry with an empty content list, the corresponding
body placeholder in the rendered slide ends up cleared: a single paragraph
carrying no text. -/
theorem create_presentation_empty_content_clears_body
    (tpl : Pres) (layout : SlideLayout) (fs : List (String × JValue))
    (entries : List JValue) (j : Nat) (efs : List (String × JValue))
    (hL : tpl.slideLayouts[1]? = some layout)
    (hB : ((layout.placeholders.find? fun ph => ph.idx == 1).isSome) = true)
    (hs : lookupLast fs "slides" = some (.arr entries))
    (hwf : ∀ e ∈ entries, wfSlideEntry e = true)
    (hj : entries[j]? = some (.obj efs))
    (hc : lookupLast efs "content" = some (.arr [])) :
    (((create_presentation (.obj fs) (.valid tpl)).2.bind
        fun p => p.slides[tpl.slides.length + j]?).bind
      fun s => (s.placeholders.find? fun ph => ph.idx == 1).map
        fun ph => ph.paragraphs) = some [""] := by
  obtain ⟨p, hp, _, _, _, hidx⟩ := createPres_wf tpl layout fs entries hL hs hwf
  have hwfj : wfSlideEntry (.obj efs) = true := hwf _ (List.getElem?_mem hj)
  obtain ⟨s2, ph, hbs, hf, hpar⟩ := buildSlide_empty_content layout efs hwfj hB hc
  have hsl := hidx j (.obj efs) hj
  rw [hbs] at hsl
  simp only [Except.toOption] at hsl
  rw [hp]
  simp [hsl, hf, hpar]

/-- Witness for C6: an entry with `"content": []` leaves the appended slide's
body placeholder with one empty paragraph. -/
theorem create_presentation_empty_content_clears_body_witness :
    (((create_presentation (.obj [("slides", .arr [sampleEntryEmpty])])
        (.valid samplePres)).2.bind
      fun p => p.slides[samplePres.slides.length + 0]?).bind
      fun s => (s.placeholders.find? fun ph => ph.idx == 1).map
        fun ph => ph.paragraphs) = some [""] :=
  create_presentation_empty_content_clears_body samplePres sampleLayout1
    [("slides", .arr [sampleEntryEmpty])] [sampleEntryEmpty] 0
    [("title", .str "Empty"), ("content", .arr [])]
    rfl rfl rfl (by decide) rfl rfl

/-- C7: For every slide entry rendered into a slide whose placeholder
collection contains no placeholder at index 1, `create_presentation` emits
that slide with only its title set and no body content (all non-title
placeholders keep their layout defaults), without raising an error. -/
theorem create_presentation_no_body_placeholder
    (tpl : Pres) (layout : SlideLayout) (fs : List (String × JValue))
    (entries : List JValue) (j : Nat) (efs : List (String × JValue))
    (ph0 : Placeholder) (tj : String)
    (hL : tpl.slideLayouts[1]? = some layout)
    (hT : (layout.placeholders.find? fun ph => ph.isTitle) = some ph0)
    (hB : (layout.placeholders.find? fun ph => ph.idx == 1) = none)
    (hs : lookupLast fs "slides" = some (.arr entries))
    (hwf : ∀ e ∈ entries, wfSlideEntry e = true)
    (hj : entries[j]? = some (.obj efs))
    (ht : lookupLast efs "title" = some (.str tj)) :
    (create_presentation (.obj fs) (.valid tpl)).1 = [] ∧
    ((create_presentation (.obj fs) (.valid tpl)).2.bind
        fun p => p.slides[tpl.slides.length + j]?) =
      some ⟨updateFirst (fun ph => ph.isTitle)
        (fun ph => { ph with paragraphs := [tj] }) layout.placeholders⟩ := by
  obtain ⟨p, hp, _, _, _, hidx⟩ := createPres_wf tpl layout fs entries hL hs hwf
  have hbs := buildSlide_no_body layout efs ph0 tj hT hB ht
  have hsl := hidx j (.obj efs) hj
  rw [hbs] at hsl
  simp only [Except.toOption] at hsl
  rw [hp]
  exact ⟨rfl, by simp [hsl]⟩

/-- Witness for C7: rendering into `titleOnlyPres` (layout 1 has no body
placeholder) emits a slide whose only change from the layout is the title
text. -/
theorem create_presentation_no_body_placeholder_witness :
    (create_presentation (.obj [("slides", .arr [.obj [("title", .str "Overview")]])])
      (.valid titleOnlyPres)).1 = [] ∧
    ((create_presentation (.obj [("slides", .arr [.obj [("title", .str "Overview")]])])
        (.valid titleOnlyPres)).2.bind
      fun p => p.slides[titleOnlyPres.slides.length + 0]?) =
      some ⟨updateFirst (fun ph => ph.isTitle)
        (fun ph => { ph with paragraphs := ["Overview"] }) sampleLayout0.placeholders⟩ :=
  create_presentation_no_body_placeholder titleOnlyPres sampleLayout0
    [("slides", .arr [.obj [("title", .str "Overview")]])]
    [.obj [("title", .str "Overview")]] 0 [("title", .str "Overview")]
    sampleTitlePh "Overview" rfl rfl rfl rfl (by decide) rfl rfl

/-- C8 (amended): For every outline with zero slide entries and every
template that loads successfully AND has a layout at position 1,
`create_presentation` returns the serialized template itself: zero
newly-appended slides, pre-existing slides preserved unchanged. -/
theorem create_presentation_zero_entries
    (tpl : Pres) (layout : SlideLayout) (fs : List (String × JValue))
    (hL : tpl.slideLayouts[1]? = some layout)
    (hs : lookupLast fs "slides" = some (.arr [])) :
    create_presentation (.obj fs) (.valid tpl) = ([], some tpl) := by
  unfold create_presentation createPresE
  simp [loadPresentation, hL, JValue.get, hs, pyIterList, addSlides]

/-- Witness for C8 (amended): the empty outline over `samplePres` — which
here has a pre-existing slide — returns that template unchanged. -/
theorem create_presentation_zero_entries_witness :
    create_presentation (.obj [("slides", .arr [])])
      (.valid ⟨[sampleLayout0, sampleLayout1], [⟨[sampleTitlePh]⟩]⟩) =
      ([], some ⟨[sampleLayout0, sampleLayout1], [⟨[sampleTitlePh]⟩]⟩) :=
  create_presentation_zero_entries ⟨[sampleLayout0, sampleLayout1], [⟨[sampleTitlePh]⟩]⟩
    sampleLayout1 [("slides", .arr [])] rfl rfl

/-- Counterexample for C8 as stated: a template with NO layout at position 1
loads successfully, yet `create_presentation` on the zero-entry outline
reports an error and returns nothing instead of the serialized template —
`prs.slide_layouts[1]` is read before the loop and raises `IndexError`. -/
theorem create_presentation_zero_entries_cex :
    loadPresentation (.valid ⟨[], []⟩) = .ok ⟨[], []⟩ ∧
    create_presentation (.obj [("slides", .arr [])]) (.valid ⟨[], []⟩) =
      ([.errorMsg
          "Failed to create presentation file: IndexError: list index out of range"],
        none) :=
  ⟨rfl, rfl⟩

/-- C3 (amended): a generator reply that parses as a JSON object lacking the
`'slides'` key does not fail the operation: `create_presentation` defaults
the slide list to `[]` via `.get('slides', [])` and returns the template
unchanged (given a layout at position 1), instead of refusing the malformed
outline. -/
theorem create_presentation_missing_slides_defaults
    (tpl : Pres) (layout : SlideLayout) (fs : List (String × JValue))
    (hL : tpl.slideLayouts[1]? = some layout)
    (hs : lookupLast fs "slides" = none) :
    create_presentation (.obj fs) (.valid tpl) = ([], some tpl) := by
  unfold create_presentation createPresE
  simp [loadPresentation, hL, JValue.get, hs, pyIterList, addSlides]

/-- Witness for C3 (amended): the object `{"foo": 1}` has no `'slides'` key,
yet the renderer returns the template unchanged. -/
theorem create_presentation_missing_slides_defaults_witness :
    create_presentation (.obj [("foo", .num 1)]) (.valid samplePres) =
      ([], some samplePres) :=
  create_presentation_missing_slides_defaults samplePres sampleLayout1
    [("foo", .num 1)] rfl rfl

/-- Counterexample for C3 as stated: the reply text `{"foo": 1}` parses as
JSON without the expected shape (no `'slides'` key), yet the operation does
NOT fail and does NOT produce nothing: the renderer succeeds, no error is
shown, and the handler offers the (unchanged) template for download. -/
theorem json_wrong_shape_cex :
    jsonLoads "\x7b\"foo\": 1\x7d" = .ok (.obj [("foo", .num 1)]) ∧
    create_presentation (.obj [("foo", .num 1)]) (.valid samplePres) =
      ([], some samplePres) ∧
    generate_button_action "t" "g" "k" (some (.valid samplePres))
        (.success "\x7b\"foo\": 1\x7d") =
      { events := [.successMsg "✅ Content structure generated!",
          .successMsg "✅ Presentation created!", .downloadOffered samplePres],
        generatorRan := true, rendererRan := true } :=
  ⟨rfl, rfl, by decide⟩

/-- C4: For every generator reply whose text is not parseable JSON,
`generate_slide_content` returns no outline (`None`) and reports an error
message, and `create_presentation` is never invoked for that action. -/
theorem unparseable_reply_no_render (api_key raw_text guidance : String)
    (tmpl : TemplateFile) (s e : String)
    (h1 : raw_text ≠ "") (h2 : api_key ≠ "")
    (hp : jsonLoads s = .error e) :
    generate_slide_content api_key raw_text guidance (.success s) =
      ([.errorMsg ("An error occurred with the LLM API call: " ++ e)], none) ∧
    generate_button_action raw_text guidance api_key (some tmpl) (.success s) =
      { events := [.errorMsg ("An error occurred with the LLM API call: " ++ e)],
        generatorRan := true, rendererRan := false } := by
  have hg : generate_slide_content api_key raw_text guidance (.success s) =
      ([.errorMsg ("An error occurred with the LLM API call: " ++ e)], none) := by
    simp [generate_slide_content, hp]
  exact ⟨hg, by simp [generate_button_action, h1, h2, hg]⟩

/-- Witness for C4: the reply `not json` fails to parse; the generator
returns `None` with an error, and the renderer never runs. -/
theorem unparseable_reply_no_render_witness :
    generate_slide_content "k" "t" "g" (.success "not json") =
      ([.errorMsg ("An error occurred with the LLM API call: " ++ "Expecting value")],
        none) ∧
    generate_button_action "t" "g" "k" (some (.valid samplePres))
        (.success "not json") =
      { events :=
          [.errorMsg ("An error occurred with the LLM API call: " ++ "Expecting value")],
        generatorRan := true, rendererRan := false } :=
  unparseable_reply_no_render "k" "t" "g" (.valid samplePres) "not json"
    "Expecting value" (by decide) (by decide) rfl

/-- C5: For every form submission in which any required field (text, API
credential, or template file) is missing, triggering the action produces the
specific error message naming the first missing field, and neither
`generate_slide_content` nor `create_presentation` runs. -/
theorem missing_required_field_blocks (raw_text guidance api_key : String)
    (uploaded_template : Option TemplateFile) (api : ApiResult)
    (h : raw_text = "" ∨ api_key = "" ∨ uploaded_template = none) :
    (generate_button_action raw_text guidance api_key uploaded_template api).generatorRan
      = false ∧
    (generate_button_action raw_text guidance api_key uploaded_template api).rendererRan
      = false ∧
    ((raw_text = "" ∧
      (generate_button_action raw_text guidance api_key uploaded_template api).events =
        [.errorMsg "Please paste your text content in Step 1."]) ∨
     (raw_text ≠ "" ∧ api_key = "" ∧
      (generate_button_action raw_text guidance api_key uploaded_template api).events =
        [.errorMsg "Please enter your API key in Step 3."]) ∨
     (raw_text ≠ "" ∧ api_key ≠ "" ∧ uploaded_template = none ∧
      (generate_button_action raw_text guidance api_key uploaded_template api).events =
        [.errorMsg "Please upload a PowerPoint template in Step 4."])) := by
  by_cases h1 : raw_text = ""
  · refine ⟨?_, ?_, Or.inl ⟨h1, ?_⟩⟩ <;> simp [generate_button_action, h1]
  · by_cases h2 : api_key = ""
    · refine ⟨?_, ?_, Or.inr (Or.inl ⟨h1, h2, ?_⟩)⟩ <;>
        simp [generate_button_action, h1, h2]
    · have h3 : uploaded_template = none := by
        rcases h with h | h | h
        · exact absurd h h1
        · exact absurd h h2
        · exact h
      refine ⟨?_, ?_, Or.inr (Or.inr ⟨h1, h2, h3, ?_⟩)⟩ <;>
        simp [generate_button_action, h1, h2, h3]

/-- Witness for C5: submitting with only the template missing reports the
Step 4 message and runs nothing. -/
theorem missing_required_field_blocks_witness :
    (generate_button_action "t" "g" "k" none (.failure "unreached")).generatorRan
      = false ∧
    (generate_button_action "t" "g" "k" none (.failure "unreached")).rendererRan
      = false ∧
    ((("t" : String) = "" ∧
      (generate_button_action "t" "g" "k" none (.failure "unreached")).events =
        [.errorMsg "Please paste your text content in Step 1."]) ∨
     (("t" : String) ≠ "" ∧ ("k" : String) = "" ∧
      (generate_button_action "t" "g" "k" none (.failure "unreached")).events =
        [.errorMsg "Please enter your API key in Step 3."]) ∨
     (("t" : String) ≠ "" ∧ ("k" : String) ≠ "" ∧
      (none : Option TemplateFile) = none ∧
      (generate_button_action "t" "g" "k" none (.failure "unreached")).events =
        [.errorMsg "Please upload a PowerPoint template in Step 4."])) :=
  missing_required_field_blocks "t" "g" "k" none (.failure "unreached")
    (Or.inr (Or.inr rfl))

/-- C10: For every form submission in which two or more required fields are
missing, exactly one error message is reported — the one for the first
missing field in the fixed check order text, API credential, template — and
later missing fields are not mentioned. -/
theorem multiple_missing_fields_one_message (raw_text guidance api_key : String)
    (uploaded_template : Option TemplateFile) (api : ApiResult)
    (h : (raw_text = "" ∧ api_key = "") ∨
         (raw_text = "" ∧ uploaded_template = none) ∨
         (api_key = "" ∧ uploaded_template = none)) :
    (generate_button_action raw_text guidance api_key uploaded_template api).events =
      [.errorMsg (if raw_text = "" then "Please paste your text content in Step 1."
        else if api_key = "" then "Please enter your API key in Step 3."
        else "Please upload a PowerPoint template in Step 4.")] ∧
    (generate_button_action raw_text guidance api_key uploaded_template api).generatorRan
      = false ∧
    (generate_button_action raw_text guidance api_key uploaded_template api).rendererRan
      = false := by
  by_cases h1 : raw_text = ""
  · refine ⟨?_, ?_, ?_⟩ <;> simp [generate_button_action, h1]
  · have h23 : api_key = "" ∧ uploaded_template = none := by
      rcases h with ⟨h, _⟩ | ⟨h, _⟩ | h
      · exact absurd h h1
      · exact absurd h h1
      · exact h
    refine ⟨?_, ?_, ?_⟩ <;>
      simp [generate_button_action, h1, h23.1, h23.2]

/-- Witness for C10: with all three fields missing only the Step 1 message
is shown. -/
theorem multiple_missing_fields_one_message_witness :
    (generate_button_action "" "" "" none (.failure "unreached")).events =
      [.errorMsg (if ("" : String) = "" then "Please paste your text content in Step 1."
        else if ("" : String) = "" then "Please enter your API key in Step 3."
        else "Please upload a PowerPoint template in Step 4.")] ∧
    (generate_button_action "" "" "" none (.failure "unreached")).generatorRan = false ∧
    (generate_button_action "" "" "" none (.failure "unreached")).rendererRan = false :=
  multiple_missing_fields_one_message "" "" "" none (.failure "unreached")
    (Or.inl ⟨rfl, rfl⟩)

/-- C9: A generator reply that is valid JSON parsing to a falsy value (such
as the texts for the empty object, `null`, the empty array, or `0`) makes
`generate_slide_content` return the parsed value with no error, yet the
renderer is never invoked, no download is offered, and no message at all is
displayed for that action. -/
theorem falsy_reply_silently_ignored (raw_text guidance api_key : String)
    (tmpl : TemplateFile) (s : String) (v : JValue)
    (h1 : raw_text ≠ "") (h2 : api_key ≠ "")
    (hp : jsonLoads s = .ok v) (hf : v.truthy = false) :
    generate_slide_content api_key raw_text guidance (.success s) = ([], some v) ∧
    generate_button_action raw_text guidance api_key (some tmpl) (.success s) =
      { events := [], generatorRan := true, rendererRan := false } := by
  have hg : generate_slide_content api_key raw_text guidance (.success s) =
      ([], some v) := by
    simp [generate_slide_content, hp]
  exact ⟨hg, by simp [generate_button_action, h1, h2, hg, hf]⟩

/-- Witness for C9: each of the four falsy replies `{}`, `null`, `[]`, `0`
is parsed and returned by the generator, and the handler then shows nothing
and never runs the renderer. -/
theorem falsy_reply_silently_ignored_witness :
    (generate_slide_content "k" "t" "g" (.success "\x7b\x7d") = ([], some (.obj [])) ∧
     generate_button_action "t" "g" "k" (some (.valid samplePres)) (.success "\x7b\x7d") =
       { events := [], generatorRan := true, rendererRan := false }) ∧
    (generate_slide_content "k" "t" "g" (.success "null") = ([], some .null) ∧
     generate_button_action "t" "g" "k" (some (.valid samplePres)) (.success "null") =
       { events := [], generatorRan := true, rendererRan := false }) ∧
    (generate_slide_content "k" "t" "g" (.success "[]") = ([], some (.arr [])) ∧
     generate_button_action "t" "g" "k" (some (.valid samplePres)) (.success "[]") =
       { events := [], generatorRan := true, rendererRan := false }) ∧
    (generate_slide_content "k" "t" "g" (.success "0") = ([], some (.num 0)) ∧
     generate_button_action "t" "g" "k" (some (.valid samplePres)) (.success "0") =
       { events := [], generatorRan := true, rendererRan := false }) :=
  ⟨falsy_reply_silently_ignored "t" "g" "k" (.valid samplePres) "\x7b\x7d" (.obj [])
      (by decide) (by decide) rfl rfl,
    falsy_reply_silently_ignored "t" "g" "k" (.valid samplePres) "null" .null
      (by decide) (by decide) rfl rfl,
    falsy_reply_silently_ignored "t" "g" "k" (.valid samplePres) "[]" (.arr [])
      (by decide) (by decide) rfl rfl,
    falsy_reply_silently_ignored "t" "g" "k" (.valid samplePres) "0" (.num 0)
      (by decide) (by decide) rfl rfl⟩
